import Mathlib

/-!
Shallow embedding of the sensor-to-physics core of `src/game.js` (a webcam
keep-ups game): the landmark→world mapper, the T-pose detector, the hold /
cooldown state machine, collision scoring with its debounce flag, and the
post-step stabilizer (velocity clamp, bounds checks, ball reset).
Machine numbers are modelled by exact rationals; timestamps are rationals in
milliseconds; the score is an integer so that non-negativity is a theorem and
not a typing artifact.
-/

namespace KeepUps

/-- A Mediapipe pose landmark: normalized position plus visibility confidence. -/
structure Landmark where
  x : ℚ
  y : ℚ
  z : ℚ
  visibility : ℚ
deriving DecidableEq

/-- A 3D world-space vector (positions, velocities, impulses). -/
structure Vec3 where
  x : ℚ
  y : ℚ
  z : ℚ
deriving DecidableEq

/-- A full pose snapshot: landmark list indexed positionally (absent entry = `none`). -/
abbrev PoseLandmarks := Nat → Option Landmark

-- Configurable game parameters (src/game.js lines 13-51).
def ballRadius : ℚ := 1/4
def COLLISION_BASE_IMPULSE_Y : ℚ := 7/10
def MAX_UPWARD_VELOCITY : ℚ := 5
def T_POSE_DURATION_THRESHOLD_MS : ℚ := 700
def T_POSE_RESET_COOLDOWN_MS : ℚ := 2000
def LANDMARK_VISIBILITY_THRESHOLD : ℚ := 4/10

-- Landmark indices (src/game.js line 51).
def L_SHOULDER : Nat := 11
def R_SHOULDER : Nat := 12
def L_ELBOW : Nat := 13
def R_ELBOW : Nat := 14
def L_WRIST : Nat := 15
def R_WRIST : Nat := 16

/-- Value of `groundMesh.position.y` (src/game.js line 123). -/
def groundY : ℚ := -1/2

/-- The `groundLevel` computed in `animate` step 7 (src/game.js line 536). -/
def groundLevel : ℚ := groundY + ballRadius

/-- Initial parking spot of the kinematic limb colliders (src/game.js line 240). -/
def offStagePos : Vec3 := ⟨-10, -10, -10⟩

-- Constants local to `mapLandmarkToWorld` (src/game.js lines 335-338).
def worldWidth : ℚ := 7/2
def worldHeight : ℚ := 7/2
def yOffset : ℚ := 1/10
def xOffset : ℚ := 0

/-- Function `mapLandmarkToWorld` (src/game.js lines 332-348): reject an absent or
low-visibility landmark, otherwise mirror/center/scale x, invert/scale/offset y,
floor y at 0, and fix z at 0. -/
def mapLandmarkToWorld : Option Landmark → Option Vec3
  | none => none
  | some lm =>
    if lm.visibility < 3/10 then none
    else some ⟨(1 - lm.x - 1/2) * worldWidth + xOffset,
               max 0 ((1 - lm.y) * worldHeight + yOffset), 0⟩

-- T-pose geometry tolerances (src/game.js lines 369-372).
def yTolerance : ℚ := 3/10
def xToleranceShoulder : ℚ := 1/10
def xToleranceElbow : ℚ := 1/10

/-- Visibility gate used by the `.every` test of `checkTPose` (src/game.js line 363). -/
def visibleEnough (lm : Landmark) : Bool :=
  decide (lm.visibility > LANDMARK_VISIBILITY_THRESHOLD)

/-- Per-side horizontal-arm condition, `leftArmHorizontal` / `rightArmHorizontal`
(src/game.js lines 375 and 381). -/
def armHorizontal (sh el wr : Landmark) : Bool :=
  decide (el.y < sh.y + yTolerance) && decide (wr.y < el.y + yTolerance)

/-- Per-side extension condition, `leftArmExtended` / `rightArmExtended`
(src/game.js lines 376 and 382). -/
def armExtended (sh el wr : Landmark) : Bool :=
  decide (|el.x - sh.x| > xToleranceShoulder) && decide (|wr.x - el.x| > xToleranceElbow)

/-- Condition `leftArmOutward` (src/game.js line 378): x grows outward on the mirrored left side. -/
def armOutwardLeft (sh el wr : Landmark) : Bool :=
  decide (el.x > sh.x) && decide (wr.x > el.x)

/-- Condition `rightArmOutward` (src/game.js line 384): x shrinks outward on the mirrored right side. -/
def armOutwardRight (sh el wr : Landmark) : Bool :=
  decide (el.x < sh.x) && decide (wr.x < el.x)

/-- The geometric part of `checkTPose` (src/game.js lines 374-387). -/
def tposeGeometry (lSh rSh lEl rEl lWr rWr : Landmark) : Bool :=
  armHorizontal lSh lEl lWr && armExtended lSh lEl lWr && armOutwardLeft lSh lEl lWr &&
  (armHorizontal rSh rEl rWr && armExtended rSh rEl rWr && armOutwardRight rSh rEl rWr)

/-- Function `checkTPose` (src/game.js lines 352-388): false on a missing landmark list,
false unless all six arm joints are present with visibility above 0.4, else the
geometric test. -/
def checkTPose (landmarks : Option PoseLandmarks) : Bool :=
  match landmarks with
  | none => false
  | some lms =>
    match lms L_SHOULDER, lms R_SHOULDER, lms L_ELBOW, lms R_ELBOW, lms L_WRIST, lms R_WRIST with
    | some lSh, some rSh, some lEl, some rEl, some lWr, some rWr =>
      (visibleEnough lSh && visibleEnough rSh && visibleEnough lEl &&
       visibleEnough rEl && visibleEnough lWr && visibleEnough rWr) &&
      tposeGeometry lSh rSh lEl rEl lWr rWr
    | _, _, _, _, _, _ => false

/-- Mirror the horizontal coordinate of a landmark (x ↦ 1 − x). -/
def mirrorLandmark (lm : Landmark) : Landmark := { lm with x := 1 - lm.x }

/-- Swap the left and right shoulder/elbow/wrist indices, fixing all others. -/
def swapSideIndex (i : Nat) : Nat :=
  if i = L_SHOULDER then R_SHOULDER else if i = R_SHOULDER then L_SHOULDER
  else if i = L_ELBOW then R_ELBOW else if i = R_ELBOW then L_ELBOW
  else if i = L_WRIST then R_WRIST else if i = R_WRIST then L_WRIST else i

/-- Simultaneously swap left/right joint entries and mirror every x coordinate. -/
def mirrorSwapPose (lms : PoseLandmarks) : PoseLandmarks :=
  fun i => (lms (swapSideIndex i)).map mirrorLandmark

/-- The per-side horizontal-arm condition as the specification words it: elbow
vertical position within a tolerance band of the shoulder and wrist within a
band of the elbow, deviation bounded in both directions. Stated for
comparison with the source condition `armHorizontal`. -/
def armHorizontalBandSpec (sh el wr : Landmark) : Bool :=
  decide (|el.y - sh.y| ≤ yTolerance) && decide (|wr.y - el.y| ≤ yTolerance)

/-- Function `updateKinematicCollider` (src/game.js lines 556-560): sets the next
kinematic translation only when a target position exists; otherwise the body is
left untouched. -/
def updateKinematicCollider (colliderPos : Vec3) (targetPos : Option Vec3) : Vec3 :=
  match targetPos with
  | some p => p
  | none => colliderPos

/-- Constant `footMarkerSize.h` (src/game.js line 15). -/
def footMarkerH : ℚ := 12/100

/-- Function `updateMarkerMesh` (src/game.js lines 562-572): position + visibility of a
visual marker; feet are drawn slightly lower; a missing target hides the marker. -/
def updateMarkerMesh (meshPos : Vec3) (isFoot : Bool) (targetPos : Option Vec3) : Vec3 × Bool :=
  match targetPos with
  | some p => ((if isFoot then ⟨p.x, p.y - footMarkerH / 3, p.z⟩ else p), true)
  | none => (meshPos, false)

/-- Collider update of one limb for one frame of `animate` (src/game.js lines
451-480): with a pose snapshot the collider follows the mapped landmark through
`updateKinematicCollider`; with no snapshot the colliders are not touched. -/
def limbFrameUpdate (colliderPos : Vec3) (pose : Option PoseLandmarks) (idx : Nat) : Vec3 :=
  match pose with
  | some lms => updateKinematicCollider colliderPos (mapLandmarkToWorld (lms idx))
  | none => colliderPos

/-- The in-play region implied by the bounds checks of `animate` step 7. -/
def inPlayArea (p : Vec3) : Bool :=
  decide (groundLevel ≤ p.y) && decide (p.y ≤ 8) && decide (|p.x| ≤ 5) && decide (|p.z| ≤ 2)

/-- One collision event drained from the physics event queue. -/
structure CollEvent where
  handle1 : Nat
  handle2 : Nat
  started : Bool
deriving DecidableEq

/-- Score, debounce flag and the impulses applied so far in this batch. -/
structure CollState where
  score : ℤ
  ballJustHitPlayer : Bool
  impulses : List Vec3
deriving DecidableEq

/-- The impulse applied on a scoring hit (src/game.js line 503). -/
def hitImpulse : Vec3 := ⟨0, COLLISION_BASE_IMPULSE_Y, 0⟩

/-- The ball/limb pairing test of the drain callback (src/game.js lines 491-497). -/
def collidedWithPlayer (ballHandle : Nat) (playerHandles : List Nat) (e : CollEvent) : Bool :=
  (e.handle1 == ballHandle && playerHandles.contains e.handle2) ||
  (e.handle2 == ballHandle && playerHandles.contains e.handle1)

/-- Body of the `drainCollisionEvents` callback (src/game.js lines 484-507). -/
def handleCollisionEvent (ballHandle : Nat) (playerHandles : List Nat)
    (s : CollState) (e : CollEvent) : CollState :=
  if e.started && collidedWithPlayer ballHandle playerHandles e && !s.ballJustHitPlayer then
    { score := s.score + 1, ballJustHitPlayer := true, impulses := s.impulses ++ [hitImpulse] }
  else s

/-- Processing the whole event batch of one physics step in order. -/
def drainCollisionEvents (ballHandle : Nat) (playerHandles : List Nat)
    (s : CollState) (events : List CollEvent) : CollState :=
  events.foldl (handleCollisionEvent ballHandle playerHandles) s

/-- A start-type ball–limb event (the kind that can score). -/
def qualifyingEvent (ballHandle : Nat) (playerHandles : List Nat) (e : CollEvent) : Bool :=
  e.started && collidedWithPlayer ballHandle playerHandles e

/-- T-pose hold state (src/game.js lines 44-48): `cooldownUntil` carries the
expiry timestamp of the `setTimeout` that clears `tPoseResetCooldownActive`. -/
structure TPoseState where
  isTPosing : Bool
  tPoseStartTime : ℚ
  cooldownUntil : Option ℚ
deriving DecidableEq

/-- State at game start. -/
def initTPoseState : TPoseState := ⟨false, 0, none⟩

/-- Flag `tPoseResetCooldownActive`. -/
def cooldownFlag (s : TPoseState) : Bool := s.cooldownUntil.isSome

/-- The pending cooldown timer fires before a frame whose timestamp has reached
the expiry. -/
def expireCooldown (s : TPoseState) (now : ℚ) : TPoseState :=
  match s.cooldownUntil with
  | some e => if e ≤ now then { s with cooldownUntil := none } else s
  | none => s

/-- Step 0 of `animate` (src/game.js lines 396-448): one frame of the T-pose
hold state machine. Returns the new state and whether a reset fired. -/
def tposeFrame (s0 : TPoseState) (poseAvailable isT : Bool) (now : ℚ) : TPoseState × Bool :=
  let s := expireCooldown s0 now
  if poseAvailable && !cooldownFlag s then
    if isT then
      if !s.isTPosing then ({ s with isTPosing := true, tPoseStartTime := now }, false)
      else if now - s.tPoseStartTime ≥ T_POSE_DURATION_THRESHOLD_MS then
        ({ s with isTPosing := false,
                  cooldownUntil := some (now + T_POSE_RESET_COOLDOWN_MS) }, true)
      else (s, false)
    else ({ s with isTPosing := false }, false)
  else if s.isTPosing then ({ s with isTPosing := false }, false)
  else (s, false)

/-- What the state machine observes in one frame: the timestamp, whether a pose
snapshot with landmarks is available, and the `checkTPose` verdict. -/
structure FrameObs where
  time : ℚ
  poseAvailable : Bool
  isT : Bool
deriving DecidableEq

/-- Run the hold state machine over a list of frames, counting fired resets. -/
def runFrames (s : TPoseState) : List FrameObs → TPoseState × ℕ
  | [] => (s, 0)
  | f :: fs =>
    let r := tposeFrame s f.poseAvailable f.isT f.time
    let rest := runFrames r.1 fs
    (rest.1, (if r.2 then 1 else 0) + rest.2)

/-- Frames at given timestamps with a pose available and detection true. -/
def allTrueFrames (ts : List ℚ) : List FrameObs :=
  ts.map fun t => ⟨t, true, true⟩

/-- Step 4 of `animate` (src/game.js lines 519-523): clamp upward velocity. -/
def clampUpwardVelocity (v : Vec3) : Vec3 :=
  if v.y > MAX_UPWARD_VELOCITY then ⟨v.x, MAX_UPWARD_VELOCITY, v.z⟩ else v

/-- Dynamic state of the ball body. -/
structure BallState where
  pos : Vec3
  linvel : Vec3
  angvel : Vec3
deriving DecidableEq

/-- Result of `resetBall`: the new ball state plus the cleared debounce flag. -/
structure ResetResult where
  ball : BallState
  ballJustHitPlayer : Bool
deriving DecidableEq

/-- Function `resetBall` (src/game.js lines 586-597). Here `r1`, `r2` stand for the two
`Math.random()` draws (each in [0,1)); explicit spawn coordinates override them. -/
def resetBall (r1 r2 : ℚ) (spawnX spawnZ : Option ℚ) : ResetResult :=
  let startX := match spawnX with | some v => v | none => (r1 - 1/2) * 1
  let startZ := match spawnZ with | some v => v | none => (r2 - 1/2) * (2/10)
  { ball := { pos := ⟨startX, 4, startZ⟩, linvel := ⟨0, -1/2, 0⟩, angvel := ⟨0, 0, 0⟩ },
    ballJustHitPlayer := false }

/-- Which reset the bounds check performed. -/
inductive ResetKind
  | noReset
  | dropReset
  | oobReset
deriving DecidableEq

/-- Visual cue colors flashed on the ball. -/
inductive Cue
  | red
  | yellow
  | green
  | cyan
deriving DecidableEq

/-- Outcome of one bounds-check pass. -/
structure BoundsResult where
  ball : BallState
  score : ℤ
  ballJustHitPlayer : Bool
  kind : ResetKind
  cue : Option Cue
deriving DecidableEq

/-- Step 7 of `animate` (src/game.js lines 535-547): drop reset below ground
level unless the gesture cooldown is active, else out-of-bounds reset past the
height/width/depth bounds, else nothing. -/
def boundsCheck (b : BallState) (cooldownActive : Bool) (score : ℤ) (hit : Bool)
    (r1 r2 : ℚ) : BoundsResult :=
  if decide (b.pos.y < groundLevel) && !cooldownActive then
    { ball := (resetBall r1 r2 none none).ball, score := 0, ballJustHitPlayer := false,
      kind := ResetKind.dropReset, cue := some Cue.red }
  else if decide (b.pos.y > 8) || decide (|b.pos.x| > 5) || decide (|b.pos.z| > 2) then
    { ball := (resetBall r1 r2 none none).ball, score := score, ballJustHitPlayer := false,
      kind := ResetKind.oobReset, cue := some Cue.yellow }
  else
    { ball := b, score := score, ballJustHitPlayer := hit, kind := ResetKind.noReset, cue := none }

/-! ## Theorems -/

/-- C5: the Landmark Mapper returns "no position" exactly when the landmark is
absent or its visibility is below 0.3; otherwise it returns the point with
x = (1 − x − 0.5)·worldWidth, y = max(0, (1 − y)·worldHeight + yOffset), z = 0,
and the returned y is never negative; it is a pure function of its argument. -/
theorem mapLandmarkToWorld_spec (olm : Option Landmark) :
    (mapLandmarkToWorld olm = none ↔
      olm = none ∨ ∃ lm, olm = some lm ∧ lm.visibility < 3/10) ∧
    (∀ lm, olm = some lm → ¬ lm.visibility < 3/10 →
      mapLandmarkToWorld olm =
        some ⟨(1 - lm.x - 1/2) * worldWidth + xOffset,
              max 0 ((1 - lm.y) * worldHeight + yOffset), 0⟩) ∧
    (∀ p, mapLandmarkToWorld olm = some p → 0 ≤ p.y) := by
  refine ⟨?_, ?_, ?_⟩
  · cases olm with
    | none => simp [mapLandmarkToWorld]
    | some lm =>
      by_cases h : lm.visibility < 3/10 <;> simp [mapLandmarkToWorld, h]
  · intro lm h hv
    subst h
    simp [mapLandmarkToWorld, hv]
  · intro p hp
    cases olm with
    | none => simp [mapLandmarkToWorld] at hp
    | some lm =>
      by_cases h : lm.visibility < 3/10
      · simp [mapLandmarkToWorld, h] at hp
      · simp [mapLandmarkToWorld, h] at hp
        rw [← hp]
        exact le_max_left _ _

/-- Witness for C5 at a concrete visible landmark. -/
theorem mapLandmarkToWorld_spec_witness :
    mapLandmarkToWorld (some ⟨1/5, 1/2, 0, 1⟩) =
      some ⟨(1 - (1/5 : ℚ) - 1/2) * worldWidth + xOffset,
            max 0 ((1 - (1/2 : ℚ)) * worldHeight + yOffset), 0⟩ :=
  (mapLandmarkToWorld_spec (some ⟨1/5, 1/2, 0, 1⟩)).2.1 ⟨1/5, 1/2, 0, 1⟩ rfl (by norm_num)

/-- C9: the stabilizer velocity clamp brings a vertical velocity above the
configured maximum (5) down to exactly the maximum, preserving x and z, and
leaves a vertical velocity at or below the maximum unchanged. -/
theorem clampUpwardVelocity_spec (v : Vec3) :
    (MAX_UPWARD_VELOCITY < v.y → clampUpwardVelocity v = ⟨v.x, MAX_UPWARD_VELOCITY, v.z⟩) ∧
    (v.y ≤ MAX_UPWARD_VELOCITY → clampUpwardVelocity v = v) := by
  constructor
  · intro h
    simp [clampUpwardVelocity, h]
  · intro h
    simp [clampUpwardVelocity, not_lt.mpr h]

/-- Witness for C9: input vertical velocity 7 yields exactly 5; input 3 is unchanged. -/
theorem clampUpwardVelocity_spec_witness :
    clampUpwardVelocity ⟨1, 7, 2⟩ = ⟨1, 5, 2⟩ ∧ clampUpwardVelocity ⟨1, 3, 2⟩ = ⟨1, 3, 2⟩ :=
  ⟨(clampUpwardVelocity_spec ⟨1, 7, 2⟩).1 (by norm_num [MAX_UPWARD_VELOCITY]),
   (clampUpwardVelocity_spec ⟨1, 3, 2⟩).2 (by norm_num [MAX_UPWARD_VELOCITY])⟩

/-- C10: after every reset the ball is at height 4.0 with linear velocity
exactly (0, −0.5, 0), zero angular velocity, and the hit-debounce flag cleared;
with no explicit spawn coordinates the spawn x lies in [−0.5, 0.5) and z in
[−0.1, 0.1). -/
theorem resetBall_spec (r1 r2 : ℚ) (h1 : 0 ≤ r1) (h1' : r1 < 1) (h2 : 0 ≤ r2) (h2' : r2 < 1)
    (sx sz : Option ℚ) :
    (resetBall r1 r2 sx sz).ball.pos.y = 4 ∧
    (resetBall r1 r2 sx sz).ball.linvel = ⟨0, -1/2, 0⟩ ∧
    (resetBall r1 r2 sx sz).ball.angvel = ⟨0, 0, 0⟩ ∧
    (resetBall r1 r2 sx sz).ballJustHitPlayer = false ∧
    (sx = none → -1/2 ≤ (resetBall r1 r2 sx sz).ball.pos.x ∧
                 (resetBall r1 r2 sx sz).ball.pos.x < 1/2) ∧
    (sz = none → -1/10 ≤ (resetBall r1 r2 sx sz).ball.pos.z ∧
                 (resetBall r1 r2 sx sz).ball.pos.z < 1/10) := by
  refine ⟨rfl, rfl, rfl, rfl, ?_, ?_⟩
  · intro hx
    subst hx
    constructor <;> simp [resetBall] <;> linarith
  · intro hz
    subst hz
    constructor <;> simp [resetBall] <;> linarith

/-- Witness for C10 at concrete random draws 1/3 and 2/3 with no explicit spawn. -/
theorem resetBall_spec_witness :
    (resetBall (1/3) (2/3) none none).ball.pos.y = 4 ∧
    (resetBall (1/3) (2/3) none none).ball.linvel = ⟨0, -1/2, 0⟩ ∧
    (resetBall (1/3) (2/3) none none).ball.angvel = ⟨0, 0, 0⟩ ∧
    (resetBall (1/3) (2/3) none none).ballJustHitPlayer = false ∧
    (-1/2 ≤ (resetBall (1/3) (2/3) none none).ball.pos.x ∧
      (resetBall (1/3) (2/3) none none).ball.pos.x < 1/2) ∧
    (-1/10 ≤ (resetBall (1/3) (2/3) none none).ball.pos.z ∧
      (resetBall (1/3) (2/3) none none).ball.pos.z < 1/10) := by
  have h := resetBall_spec (1/3) (2/3) (by norm_num) (by norm_num) (by norm_num) (by norm_num)
    none none
  exact ⟨h.1, h.2.1, h.2.2.1, h.2.2.2.1, h.2.2.2.2.1 rfl, h.2.2.2.2.2 rfl⟩

/-- C8: in every bounds-check pass, a ball below ground-surface + radius
(−0.25 with the defaults) with no active gesture cooldown triggers a drop reset
(respawn at height 4.0, score set to exactly 0, red cue); otherwise a ball past
y > 8 or |x| > 5 or |z| > 2 triggers an out-of-bounds reset (default respawn,
score unchanged, yellow cue); the score is never negative. -/
theorem boundsCheck_spec (b : BallState) (cd : Bool) (sc : ℤ) (hit : Bool) (r1 r2 : ℚ)
    (hsc : 0 ≤ sc) :
    groundLevel = -(1/4) ∧
    (b.pos.y < groundLevel → cd = false →
      boundsCheck b cd sc hit r1 r2 =
        { ball := (resetBall r1 r2 none none).ball, score := 0, ballJustHitPlayer := false,
          kind := ResetKind.dropReset, cue := some Cue.red } ∧
      (boundsCheck b cd sc hit r1 r2).ball.pos.y = 4) ∧
    (¬ (b.pos.y < groundLevel ∧ cd = false) →
      (b.pos.y > 8 ∨ |b.pos.x| > 5 ∨ |b.pos.z| > 2) →
      boundsCheck b cd sc hit r1 r2 =
        { ball := (resetBall r1 r2 none none).ball, score := sc, ballJustHitPlayer := false,
          kind := ResetKind.oobReset, cue := some Cue.yellow }) ∧
    0 ≤ (boundsCheck b cd sc hit r1 r2).score := by
  refine ⟨by norm_num [groundLevel, groundY, ballRadius], ?_, ?_, ?_⟩
  · intro hy hcd
    subst hcd
    refine ⟨by simp [boundsCheck, hy], ?_⟩
    simp [boundsCheck, hy, resetBall]
  · intro hnot hoob
    have hcond : ¬ (decide (b.pos.y < groundLevel) && !cd) = true := by
      intro hc
      simp only [Bool.and_eq_true, decide_eq_true_eq, Bool.not_eq_true'] at hc
      exact hnot ⟨hc.1, hc.2⟩
    have hcond2 : (decide (b.pos.y > 8) || decide (|b.pos.x| > 5) || decide (|b.pos.z| > 2))
        = true := by
      rcases hoob with h | h | h <;> simp [h]
    simp only [boundsCheck, hcond, hcond2, if_false, if_true, Bool.false_eq_true]
  · by_cases h1 : (decide (b.pos.y < groundLevel) && !cd) = true
    · simp [boundsCheck, h1]
    · by_cases h2 : (decide (b.pos.y > 8) || decide (|b.pos.x| > 5) || decide (|b.pos.z| > 2))
          = true
      · simp [boundsCheck, h1, h2, hsc]
      · simp [boundsCheck, h1, h2, hsc]

/-- Witness for C8: a drop at y = −0.3 zeroes a score of 5 with a red cue, and an
out-of-bounds ball at y = 9 keeps its score of 5 with a yellow cue. -/
theorem boundsCheck_spec_witness :
    boundsCheck ⟨⟨0, -3/10, 0⟩, ⟨0, 0, 0⟩, ⟨0, 0, 0⟩⟩ false 5 true (1/2) (1/2) =
      { ball := (resetBall (1/2) (1/2) none none).ball, score := 0, ballJustHitPlayer := false,
        kind := ResetKind.dropReset, cue := some Cue.red } ∧
    boundsCheck ⟨⟨0, 9, 0⟩, ⟨0, 0, 0⟩, ⟨0, 0, 0⟩⟩ false 5 true (1/2) (1/2) =
      { ball := (resetBall (1/2) (1/2) none none).ball, score := 5, ballJustHitPlayer := false,
        kind := ResetKind.oobReset, cue := some Cue.yellow } := by
  constructor
  · exact ((boundsCheck_spec ⟨⟨0, -3/10, 0⟩, ⟨0, 0, 0⟩, ⟨0, 0, 0⟩⟩ false 5 true (1/2) (1/2)
      (by norm_num)).2.1 (by norm_num [groundLevel, groundY, ballRadius]) rfl).1
  · exact (boundsCheck_spec ⟨⟨0, 9, 0⟩, ⟨0, 0, 0⟩, ⟨0, 0, 0⟩⟩ false 5 true (1/2) (1/2)
      (by norm_num)).2.2.1 (by norm_num [groundLevel, groundY, ballRadius]) (by norm_num)

/-- C1 counterexample: with the limb collider previously at the in-play point
(0, 1, 0), a frame whose landmark is absent (and likewise a frame with no pose
snapshot at all) leaves the collider exactly at its last known in-play position,
which is inside the play area and differs from the off-stage parking position —
refuting the claim that it is moved off the play area. -/
theorem limbFrameUpdate_stale_counterexample :
    limbFrameUpdate ⟨0, 1, 0⟩ (some fun _ => none) 25 = ⟨0, 1, 0⟩ ∧
    limbFrameUpdate ⟨0, 1, 0⟩ none 25 = ⟨0, 1, 0⟩ ∧
    inPlayArea ⟨0, 1, 0⟩ = true ∧
    (⟨0, 1, 0⟩ : Vec3) ≠ offStagePos ∧
    inPlayArea offStagePos = false := by
  refine ⟨rfl, rfl, ?_, ?_, ?_⟩
  · norm_num [inPlayArea, groundLevel, groundY, ballRadius]
  · intro hcontra
    exact absurd (congrArg Vec3.x hcontra) (by norm_num [offStagePos])
  · norm_num [inPlayArea, offStagePos, groundLevel, groundY, ballRadius]

/-- C1 amended: for every frame in which a limb landmark is absent or has
visibility below the mapping threshold (including frames with no pose snapshot
at all), the kinematic limb collider is left unchanged at its previous position
(stale, not parked off the play area); only the corresponding visual marker is
hidden. -/
theorem limbFrameUpdate_stale (p m : Vec3) (isFoot : Bool) (pose : Option PoseLandmarks)
    (idx : Nat) (h : ∀ lms, pose = some lms → mapLandmarkToWorld (lms idx) = none) :
    limbFrameUpdate p pose idx = p ∧
    (updateMarkerMesh m isFoot none).2 = false := by
  refine ⟨?_, rfl⟩
  cases pose with
  | none => rfl
  | some lms =>
    simp only [limbFrameUpdate, h lms rfl, updateKinematicCollider]

/-- Witness for the amended C1: a pose whose landmarks all have visibility 0.2
(below the 0.3 threshold) leaves a collider at (0, 1, 0) untouched. -/
theorem limbFrameUpdate_stale_witness :
    limbFrameUpdate ⟨0, 1, 0⟩ (some fun _ => some ⟨1/2, 1/2, 0, 1/5⟩) 25 = ⟨0, 1, 0⟩ ∧
    (updateMarkerMesh ⟨0, 1, 0⟩ false none).2 = false :=
  limbFrameUpdate_stale ⟨0, 1, 0⟩ ⟨0, 1, 0⟩ false (some fun _ => some ⟨1/2, 1/2, 0, 1/5⟩) 25
    (fun lms hl => by cases hl; norm_num [mapLandmarkToWorld])

/-- C6 counterexample: with shoulder at normalized y = 0.9 and elbow and wrist
at y = 0 (deviation 0.9, three times the 0.3 tolerance), the source per-side
horizontal-arm condition still holds, while the claimed two-sided tolerance
band does not — so the condition does not hold "exactly when" the vertical
deviations are bounded in both directions. -/
theorem armHorizontal_band_counterexample :
    armHorizontal ⟨1/2, 9/10, 0, 1⟩ ⟨1/2, 0, 0, 1⟩ ⟨1/2, 0, 0, 1⟩ = true ∧
    armHorizontalBandSpec ⟨1/2, 9/10, 0, 1⟩ ⟨1/2, 0, 0, 1⟩ ⟨1/2, 0, 0, 1⟩ = false := by
  constructor
  · norm_num [armHorizontal, yTolerance]
  · norm_num [armHorizontalBandSpec, yTolerance, abs_le]

/-- C6 amended: the per-side horizontal-arm condition holds exactly when the
downward deviation of the elbow from the shoulder and of the wrist
from the elbow are each below the tolerance — the deviation is bounded only in
the downward direction, and any arm at or above level always passes. -/
theorem armHorizontal_one_sided (sh el wr : Landmark) :
    (armHorizontal sh el wr = true ↔
      el.y - sh.y < yTolerance ∧ wr.y - el.y < yTolerance) ∧
    (el.y ≤ sh.y → wr.y ≤ el.y → armHorizontal sh el wr = true) := by
  have hiff : armHorizontal sh el wr = true ↔
      el.y - sh.y < yTolerance ∧ wr.y - el.y < yTolerance := by
    simp only [armHorizontal, Bool.and_eq_true, decide_eq_true_eq]
    constructor
    · rintro ⟨ha, hb⟩
      exact ⟨by linarith, by linarith⟩
    · rintro ⟨ha, hb⟩
      exact ⟨by linarith, by linarith⟩
  refine ⟨hiff, fun h1 h2 => hiff.mpr ⟨?_, ?_⟩⟩
  · have : (0 : ℚ) < yTolerance := by norm_num [yTolerance]
    linarith
  · have : (0 : ℚ) < yTolerance := by norm_num [yTolerance]
    linarith

/-- Witness for the amended C6: an elbow far above the shoulder (deviation 0.9
upward) still passes, because only downward deviation is bounded. -/
theorem armHorizontal_one_sided_witness :
    armHorizontal ⟨1/2, 9/10, 0, 1⟩ ⟨1/2, 0, 0, 1⟩ ⟨1/2, 0, 0, 1⟩ = true :=
  (armHorizontal_one_sided ⟨1/2, 9/10, 0, 1⟩ ⟨1/2, 0, 0, 1⟩ ⟨1/2, 0, 0, 1⟩).2
    (by norm_num) (by norm_num)

/-- Helper: once the debounce flag is set, draining any event batch changes nothing. -/
theorem drainCollisionEvents_flag_set (bh : Nat) (phs : List Nat) (events : List CollEvent)
    (s : CollState) (h : s.ballJustHitPlayer = true) :
    drainCollisionEvents bh phs s events = s := by
  induction events with
  | nil => rfl
  | cons e es ih =>
    have hstep : handleCollisionEvent bh phs s e = s := by
      simp [handleCollisionEvent, h]
    simp only [drainCollisionEvents, List.foldl_cons] at ih ⊢
    rw [hstep]
    exact ih

/-- C2: in one physics-step event batch, with the debounce flag set nothing
changes; with the flag clear and at least one start-type ball–limb event in the
batch, the score increments by exactly 1, exactly one upward impulse of
y = 0.7 is applied, and the flag ends set (so simultaneous limb contacts still
score exactly once); with no qualifying event the state is untouched. -/
theorem drainCollisionEvents_spec (bh : Nat) (phs : List Nat) (events : List CollEvent)
    (s : CollState) :
    (s.ballJustHitPlayer = true → drainCollisionEvents bh phs s events = s) ∧
    (s.ballJustHitPlayer = false → events.any (qualifyingEvent bh phs) = true →
      drainCollisionEvents bh phs s events =
        { score := s.score + 1, ballJustHitPlayer := true,
          impulses := s.impulses ++ [hitImpulse] }) ∧
    (s.ballJustHitPlayer = false → events.any (qualifyingEvent bh phs) = false →
      drainCollisionEvents bh phs s events = s) := by
  refine ⟨fun h => drainCollisionEvents_flag_set bh phs events s h, ?_, ?_⟩
  · induction events generalizing s with
    | nil =>
      intro _ hany
      simp at hany
    | cons e es ih =>
      intro hflag hany
      by_cases hq : qualifyingEvent bh phs e = true
      · have hstep : handleCollisionEvent bh phs s e =
            { score := s.score + 1, ballJustHitPlayer := true,
              impulses := s.impulses ++ [hitImpulse] } := by
          have hc : (e.started && collidedWithPlayer bh phs e && !s.ballJustHitPlayer) = true := by
            simp only [qualifyingEvent] at hq
            simp [hq, hflag]
          simp [handleCollisionEvent, hc]
        simp only [drainCollisionEvents, List.foldl_cons]
        rw [hstep]
        exact drainCollisionEvents_flag_set bh phs es _ rfl
      · have hq' : qualifyingEvent bh phs e = false := by
          simpa using hq
        have hstep : handleCollisionEvent bh phs s e = s := by
          have hc : (e.started && collidedWithPlayer bh phs e && !s.ballJustHitPlayer) = false := by
            have : (e.started && collidedWithPlayer bh phs e) = false := hq'
            simp [this]
          simp [handleCollisionEvent, hc]
        have hany' : es.any (qualifyingEvent bh phs) = true := by
          simpa [hq'] using hany
        simp only [drainCollisionEvents, List.foldl_cons]
        rw [hstep]
        exact ih s hflag hany'
  · induction events generalizing s with
    | nil =>
      intro _ _
      rfl
    | cons e es ih =>
      intro hflag hany
      simp only [List.any_cons, Bool.or_eq_false_iff] at hany
      have hstep : handleCollisionEvent bh phs s e = s := by
        have hc : (e.started && collidedWithPlayer bh phs e && !s.ballJustHitPlayer) = false := by
          have : (e.started && collidedWithPlayer bh phs e) = false := hany.1
          simp [this]
        simp [handleCollisionEvent, hc]
      simp only [drainCollisionEvents, List.foldl_cons]
      rw [hstep]
      exact ih s hflag hany.2

/-- Witness for C2: a batch with two simultaneous start-type ball–limb events
(ball handle 0 against limb handles 1 and 2), starting from score 0 with the
flag clear, yields score exactly 1, one 0.7-impulse, and a set flag. -/
theorem drainCollisionEvents_spec_witness :
    drainCollisionEvents 0 [1, 2, 3, 4] ⟨0, false, []⟩ [⟨0, 1, true⟩, ⟨0, 2, true⟩] =
      ⟨1, true, [hitImpulse]⟩ := by
  have h := (drainCollisionEvents_spec 0 [1, 2, 3, 4] [⟨0, 1, true⟩, ⟨0, 2, true⟩]
      ⟨0, false, []⟩).2.1 rfl (by decide)
  simpa using h

/-- Helper: run counts add over list append. -/
theorem runFrames_append (s : TPoseState) (fs gs : List FrameObs) :
    (runFrames s (fs ++ gs)).1 = (runFrames (runFrames s fs).1 gs).1 ∧
    (runFrames s (fs ++ gs)).2 = (runFrames s fs).2 + (runFrames (runFrames s fs).1 gs).2 := by
  induction fs generalizing s with
  | nil => simp [runFrames]
  | cons f fs ih =>
    simp only [List.cons_append, runFrames, List.append_eq]
    refine ⟨(ih _).1, ?_⟩
    rw [(ih _).2]
    omega

/-- Helper: while Holding with no cooldown, all-true frames strictly before the
700ms mark change nothing and fire nothing. -/
theorem runFrames_hold (u : ℚ) (ts : List ℚ)
    (h : ∀ t ∈ ts, t < u + T_POSE_DURATION_THRESHOLD_MS) :
    runFrames ⟨true, u, none⟩ (allTrueFrames ts) = (⟨true, u, none⟩, 0) := by
  induction ts with
  | nil => rfl
  | cons t ts ih =>
    have ht : t < u + T_POSE_DURATION_THRESHOLD_MS := h t (List.mem_cons_self t ts)
    have hlt : ¬ T_POSE_DURATION_THRESHOLD_MS ≤ t - u := by
      intro hc
      linarith
    have hstep : tposeFrame ⟨true, u, none⟩ true true t = (⟨true, u, none⟩, false) := by
      simp [tposeFrame, expireCooldown, cooldownFlag, hlt]
    have ih' := ih (fun x hx => h x (List.mem_cons_of_mem t hx))
    simp only [allTrueFrames, List.map_cons] at ih' ⊢
    simp only [runFrames, hstep]
    simp [ih']

/-- Helper: with the hold flag down and an unexpired cooldown, any frames
strictly before the expiry leave the state untouched and fire nothing. -/
theorem runFrames_cooldown (e u : ℚ) (fs : List FrameObs) (h : ∀ f ∈ fs, f.time < e) :
    runFrames ⟨false, u, some e⟩ fs = (⟨false, u, some e⟩, 0) := by
  induction fs with
  | nil => rfl
  | cons f fs ih =>
    have ht : f.time < e := h f (List.mem_cons_self f fs)
    have hnot : ¬ e ≤ f.time := not_le.mpr ht
    have hstep : tposeFrame ⟨false, u, some e⟩ f.poseAvailable f.isT f.time =
        (⟨false, u, some e⟩, false) := by
      simp [tposeFrame, expireCooldown, cooldownFlag, hnot]
    have ih' := ih (fun x hx => h x (List.mem_cons_of_mem f hx))
    simp only [runFrames, hstep]
    simp [ih']

/-- Helper: a frame that fires the reset leaves Holding and arms the cooldown
until 2000ms after the timestamp of the firing frame. -/
theorem tposeFrame_fired (s0 : TPoseState) (pa isT : Bool) (now : ℚ)
    (h : (tposeFrame s0 pa isT now).2 = true) :
    (tposeFrame s0 pa isT now).1 =
      ⟨false, (expireCooldown s0 now).tPoseStartTime, some (now + T_POSE_RESET_COOLDOWN_MS)⟩ := by
  simp only [tposeFrame] at h ⊢
  split_ifs at h ⊢
  all_goals simp_all

/-- C3: from the idle start state, a continuous run of true detections with
monotone timestamps spanning exactly 700ms from the first true frame fires
exactly one reset, while a run spanning only 699ms fires none. -/
theorem tpose_hold_duration (t0 : ℚ) (mid mid699 : List ℚ)
    (hmid : ∀ t ∈ mid, t0 < t ∧ t < t0 + 700)
    (hmid699 : ∀ t ∈ mid699, t0 < t ∧ t < t0 + 699) :
    (runFrames initTPoseState (allTrueFrames ((t0 :: mid) ++ [t0 + 700]))).2 = 1 ∧
    (runFrames initTPoseState (allTrueFrames ((t0 :: mid699) ++ [t0 + 699]))).2 = 0 := by
  have hstart : tposeFrame initTPoseState true true t0 = (⟨true, t0, none⟩, false) := rfl
  constructor
  · have key : allTrueFrames ((t0 :: mid) ++ [t0 + 700]) =
        ⟨t0, true, true⟩ :: (allTrueFrames mid ++ [⟨t0 + 700, true, true⟩]) := by
      simp [allTrueFrames]
    have happ := runFrames_append ⟨true, t0, none⟩ (allTrueFrames mid)
      [⟨t0 + 700, true, true⟩]
    have hhold := runFrames_hold t0 mid
      (fun t ht => by
        unfold T_POSE_DURATION_THRESHOLD_MS
        have := (hmid t ht).2
        linarith)
    have hge : T_POSE_DURATION_THRESHOLD_MS ≤ t0 + 700 - t0 := by
      unfold T_POSE_DURATION_THRESHOLD_MS
      linarith
    have hge' : T_POSE_DURATION_THRESHOLD_MS ≤ (700 : ℚ) := by
      unfold T_POSE_DURATION_THRESHOLD_MS
      norm_num
    have hfire : tposeFrame ⟨true, t0, none⟩ true true (t0 + 700) =
        (⟨false, t0, some (t0 + 700 + T_POSE_RESET_COOLDOWN_MS)⟩, true) := by
      simp [tposeFrame, expireCooldown, cooldownFlag, hge, hge']
    rw [key]
    simp only [runFrames, hstart]
    rw [happ.2, hhold]
    simp [runFrames, hfire]
  · have key : allTrueFrames ((t0 :: mid699) ++ [t0 + 699]) =
        ⟨t0, true, true⟩ :: allTrueFrames (mid699 ++ [t0 + 699]) := by
      simp [allTrueFrames]
    have hhold := runFrames_hold t0 (mid699 ++ [t0 + 699])
      (fun t ht => by
        unfold T_POSE_DURATION_THRESHOLD_MS
        rcases List.mem_append.mp ht with h | h
        · have := (hmid699 t h).2
          linarith
        · simp at h
          subst h
          linarith)
    rw [key]
    simp only [runFrames, hstart]
    rw [hhold]
    simp

/-- Witness for C3: frames at 0, 350, 700ms fire exactly one reset; frames at
0, 350, 699ms fire none. -/
theorem tpose_hold_duration_witness :
    (runFrames initTPoseState (allTrueFrames ((0 :: [350]) ++ [(0 : ℚ) + 700]))).2 = 1 ∧
    (runFrames initTPoseState (allTrueFrames ((0 :: [350]) ++ [(0 : ℚ) + 699]))).2 = 0 := by
  have h := tpose_hold_duration 0 [350] [350]
    (by intro t ht; simp at ht; subst ht; norm_num)
    (by intro t ht; simp at ht; subst ht; norm_num)
  exact h

/-- C4: once a frame fires a gesture reset at time tr, frames within the
following 2000ms leave the machine unchanged — never re-entering Holding and
firing no second reset regardless of pose availability or detection — the
cooldown flag stays set, and with the cooldown flag set the bounds check can
never perform a ground-drop reset. -/
theorem tpose_cooldown_blocks (s0 : TPoseState) (pa isT : Bool) (tr : ℚ)
    (hfire : (tposeFrame s0 pa isT tr).2 = true)
    (fs : List FrameObs)
    (hf : ∀ f ∈ fs, tr < f.time ∧ f.time < tr + T_POSE_RESET_COOLDOWN_MS) :
    runFrames (tposeFrame s0 pa isT tr).1 fs = ((tposeFrame s0 pa isT tr).1, 0) ∧
    (tposeFrame s0 pa isT tr).1.isTPosing = false ∧
    cooldownFlag (tposeFrame s0 pa isT tr).1 = true ∧
    (∀ b sc hit r1 r2, (boundsCheck b true sc hit r1 r2).kind ≠ ResetKind.dropReset) := by
  have hstate := tposeFrame_fired s0 pa isT tr hfire
  refine ⟨?_, by rw [hstate], by rw [hstate]; rfl, ?_⟩
  · rw [hstate]
    exact runFrames_cooldown (tr + T_POSE_RESET_COOLDOWN_MS)
      (expireCooldown s0 tr).tPoseStartTime fs (fun f hfm => (hf f hfm).2)
  · intro b sc hit r1 r2
    simp only [boundsCheck, Bool.not_true, Bool.and_false, Bool.false_eq_true, if_false]
    split <;> simp

/-- Witness for C4: a reset fires at 700ms after holding since 0; frames at
1000ms (still T-posing) and 2699ms change nothing, and a below-ground ball
with the cooldown set is not drop-reset. -/
theorem tpose_cooldown_blocks_witness :
    runFrames (tposeFrame ⟨true, 0, none⟩ true true 700).1
        [⟨1000, true, true⟩, ⟨2699, false, false⟩] =
      ((tposeFrame ⟨true, 0, none⟩ true true 700).1, 0) ∧
    cooldownFlag (tposeFrame ⟨true, 0, none⟩ true true 700).1 = true ∧
    (boundsCheck ⟨⟨0, -1, 0⟩, ⟨0, 0, 0⟩, ⟨0, 0, 0⟩⟩ true 5 false 0 0).kind ≠
      ResetKind.dropReset := by
  have h := tpose_cooldown_blocks ⟨true, 0, none⟩ true true 700
    (by norm_num [tposeFrame, expireCooldown, cooldownFlag, T_POSE_DURATION_THRESHOLD_MS])
    [⟨1000, true, true⟩, ⟨2699, false, false⟩]
    (by
      intro f hfm
      simp only [List.mem_cons, List.not_mem_nil, or_false] at hfm
      rcases hfm with hfm | hfm <;> subst hfm <;>
        exact ⟨by norm_num, by unfold T_POSE_RESET_COOLDOWN_MS; norm_num⟩)
  exact ⟨h.1, h.2.2.1, h.2.2.2 ⟨⟨0, -1, 0⟩, ⟨0, 0, 0⟩, ⟨0, 0, 0⟩⟩ 5 false 0 0⟩

/-- Helper: mirroring x does not change visibility. -/
theorem visibleEnough_mirror (lm : Landmark) :
    visibleEnough (mirrorLandmark lm) = visibleEnough lm := rfl

/-- Helper: the horizontal-arm condition only reads y, so mirroring x preserves it. -/
theorem armHorizontal_mirror (sh el wr : Landmark) :
    armHorizontal (mirrorLandmark sh) (mirrorLandmark el) (mirrorLandmark wr) =
      armHorizontal sh el wr := rfl

/-- Helper: the extension condition is invariant under mirroring x. -/
theorem armExtended_mirror (sh el wr : Landmark) :
    armExtended (mirrorLandmark sh) (mirrorLandmark el) (mirrorLandmark wr) =
      armExtended sh el wr := by
  simp only [armExtended, mirrorLandmark]
  have e1 : (1 - el.x) - (1 - sh.x) = -(el.x - sh.x) := by ring
  have e2 : (1 - wr.x) - (1 - el.x) = -(wr.x - el.x) := by ring
  congr 1
  · rw [decide_eq_decide, e1, abs_neg]
  · rw [decide_eq_decide, e2, abs_neg]

/-- Helper: mirroring x turns the left outward ordering into the right one. -/
theorem armOutwardLeft_mirror (sh el wr : Landmark) :
    armOutwardLeft (mirrorLandmark sh) (mirrorLandmark el) (mirrorLandmark wr) =
      armOutwardRight sh el wr := by
  simp only [armOutwardLeft, armOutwardRight, mirrorLandmark]
  congr 1
  · rw [decide_eq_decide]
    constructor <;> intro h <;> linarith
  · rw [decide_eq_decide]
    constructor <;> intro h <;> linarith

/-- Helper: mirroring x turns the right outward ordering into the left one. -/
theorem armOutwardRight_mirror (sh el wr : Landmark) :
    armOutwardRight (mirrorLandmark sh) (mirrorLandmark el) (mirrorLandmark wr) =
      armOutwardLeft sh el wr := by
  simp only [armOutwardLeft, armOutwardRight, mirrorLandmark]
  congr 1
  · rw [decide_eq_decide]
    constructor <;> intro h <;> linarith
  · rw [decide_eq_decide]
    constructor <;> intro h <;> linarith

/-- Helper: the T-pose geometry is invariant under swapping sides and mirroring x. -/
theorem tposeGeometry_mirror_swap (lSh rSh lEl rEl lWr rWr : Landmark) :
    tposeGeometry (mirrorLandmark rSh) (mirrorLandmark lSh) (mirrorLandmark rEl)
      (mirrorLandmark lEl) (mirrorLandmark rWr) (mirrorLandmark lWr) =
      tposeGeometry lSh rSh lEl rEl lWr rWr := by
  unfold tposeGeometry
  rw [armHorizontal_mirror, armHorizontal_mirror, armExtended_mirror, armExtended_mirror,
    armOutwardLeft_mirror, armOutwardRight_mirror]
  generalize armHorizontal lSh lEl lWr = a
  generalize armExtended lSh lEl lWr = b
  generalize armOutwardLeft lSh lEl lWr = c
  generalize armHorizontal rSh rEl rWr = d
  generalize armExtended rSh rEl rWr = e
  generalize armOutwardRight rSh rEl rWr = f
  cases a <;> cases b <;> cases c <;> cases d <;> cases e <;> cases f <;> rfl

/-- Helper: Bool identity for swapping the paired conjuncts of the visibility block. -/
theorem and_swap_pairs (a b c d e f g : Bool) :
    ((b && a && d && c && f && e) && g) = ((a && b && c && d && e && f) && g) := by
  cases a <;> cases b <;> cases c <;> cases d <;> cases e <;> cases f <;> cases g <;> rfl

set_option maxHeartbeats 2000000 in
/-- C7: the T-pose detector gives the same verdict on a landmark set and on the
set obtained by simultaneously swapping the left/right shoulder, elbow and
wrist entries and mirroring every horizontal coordinate (x ↦ 1 − x). -/
theorem checkTPose_mirror_swap (lms : PoseLandmarks) :
    checkTPose (some (mirrorSwapPose lms)) = checkTPose (some lms) := by
  have s11 : mirrorSwapPose lms L_SHOULDER = (lms R_SHOULDER).map mirrorLandmark := rfl
  have s12 : mirrorSwapPose lms R_SHOULDER = (lms L_SHOULDER).map mirrorLandmark := rfl
  have s13 : mirrorSwapPose lms L_ELBOW = (lms R_ELBOW).map mirrorLandmark := rfl
  have s14 : mirrorSwapPose lms R_ELBOW = (lms L_ELBOW).map mirrorLandmark := rfl
  have s15 : mirrorSwapPose lms L_WRIST = (lms R_WRIST).map mirrorLandmark := rfl
  have s16 : mirrorSwapPose lms R_WRIST = (lms L_WRIST).map mirrorLandmark := rfl
  rcases h11 : lms L_SHOULDER with _ | lSh <;>
  rcases h12 : lms R_SHOULDER with _ | rSh <;>
  rcases h13 : lms L_ELBOW with _ | lEl <;>
  rcases h14 : lms R_ELBOW with _ | rEl <;>
  rcases h15 : lms L_WRIST with _ | lWr <;>
  rcases h16 : lms R_WRIST with _ | rWr <;>
  simp only [checkTPose, s11, s12, s13, s14, s15, s16, h11, h12, h13, h14, h15, h16,
    Option.map_some', Option.map_none']
  simp only [visibleEnough_mirror, tposeGeometry_mirror_swap]
  exact and_swap_pairs _ _ _ _ _ _ _

end KeepUps
